import Mathlib

/-!
# Verification of the `egui_spine` rendering bridge

A shallow embedding, in Lean 4, of the rendering bridge of the
`egui_spine` crate:

* `src/renderer.rs` — the blend-state resolver
  (`SpineBlendMode::into_blend_state`) and the `Vertex` layout;
* `src/renderer/wgpu.rs` — the per-frame paint path
  (`RendererCallback::paint`), the lazy texture cache (`WgpuTexture`
  `Loading`/`Loaded` slots), `WgpuResources::create_texture_bind_group`,
  and the `nonzero` helper;
* `src/lib.rs` — the widget draw entry point (`<&mut Spine as Widget>::ui`,
  with its `Arc::get_mut` re-entrancy guard and delta-time flooring) and
  the constructor `Spine::__new` (animation lookup).

External collaborators (the `wgpu` device/queue, the `image` decoder and
the `rusty_spine` engine) are modelled as parameters or as abstract data;
GPU calls are recorded in an explicit effect trace so that statements
about "no reallocation", "decode exactly once", "no draw call" and the
like can be made precise.  Panics (`unwrap`, `expect`, `unreachable!`,
the explicit re-entrancy panic) are modelled as a `panic` outcome
carrying the source's panic message.
-/

namespace EguiSpine

/-! ## Blend state (src/renderer.rs) -/

/-- `wgpu::BlendFactor` (the variants this crate can produce, plus the
common remaining ones of the wgpu enum). -/
inductive BlendFactor
  | Zero
  | One
  | Src
  | OneMinusSrc
  | SrcAlpha
  | OneMinusSrcAlpha
  | Dst
  | OneMinusDst
  | DstAlpha
  | OneMinusDstAlpha
  deriving DecidableEq, Repr

/-- `wgpu::BlendOperation`. -/
inductive BlendOperation
  | Add
  | Subtract
  | ReverseSubtract
  | Min
  | Max
  deriving DecidableEq, Repr

/-- `wgpu::BlendComponent`: one blend equation. -/
structure BlendComponent where
  operation : BlendOperation
  src_factor : BlendFactor
  dst_factor : BlendFactor
  deriving DecidableEq, Repr

/-- `wgpu::BlendState`: a color equation and an alpha equation. -/
structure BlendState where
  color : BlendComponent
  alpha : BlendComponent
  deriving DecidableEq, Repr

/-- `rusty_spine::BlendMode`, the tag wrapped by `SpineBlendMode`. -/
inductive BlendMode
  | Additive
  | Multiply
  | Normal
  | Screen
  deriving DecidableEq, Repr

/-- `SpineBlendMode::into_blend_state` from `src/renderer.rs` (lines
40–156), transcribed case by case.  The Rust code matches on the wrapped
`BlendMode` and on `premultiplied_alpha`. -/
def intoBlendState (mode : BlendMode) (premultiplied_alpha : Bool) : BlendState :=
  match mode with
  | .Additive =>
    match premultiplied_alpha with
    -- Case 1: Additive Blend Mode, Normal Alpha
    | false =>
      { alpha := { operation := .Add, src_factor := .One, dst_factor := .One }
        color := { operation := .Add, src_factor := .SrcAlpha, dst_factor := .One } }
    -- Case 2: Additive Blend Mode, Premultiplied Alpha
    | true =>
      { alpha := { operation := .Add, src_factor := .One, dst_factor := .One }
        color := { operation := .Add, src_factor := .One, dst_factor := .One } }
  | .Multiply =>
    match premultiplied_alpha with
    -- Case 3: Multiply Blend Mode, Normal Alpha
    | false =>
      { alpha := { operation := .Add, src_factor := .OneMinusSrcAlpha,
                   dst_factor := .OneMinusSrcAlpha }
        color := { operation := .Add, src_factor := .Dst, dst_factor := .OneMinusSrcAlpha } }
    -- Case 4: Multiply Blend Mode, Premultiplied Alpha
    | true =>
      { alpha := { operation := .Add, src_factor := .OneMinusSrcAlpha,
                   dst_factor := .OneMinusSrcAlpha }
        color := { operation := .Add, src_factor := .Dst, dst_factor := .OneMinusSrcAlpha } }
  | .Normal =>
    match premultiplied_alpha with
    -- Case 5: Normal Blend Mode, Normal Alpha
    | false =>
      { alpha := { operation := .Add, src_factor := .One, dst_factor := .OneMinusSrcAlpha }
        color := { operation := .Add, src_factor := .SrcAlpha,
                   dst_factor := .OneMinusSrcAlpha } }
    -- Case 6: Normal Blend Mode, Premultiplied Alpha
    | true =>
      { alpha := { operation := .Add, src_factor := .One, dst_factor := .OneMinusSrcAlpha }
        color := { operation := .Add, src_factor := .One, dst_factor := .OneMinusSrcAlpha } }
  | .Screen =>
    match premultiplied_alpha with
    -- Case 7: Screen Blend Mode, Normal Alpha
    | false =>
      { alpha := { operation := .Add, src_factor := .OneMinusSrc,
                   dst_factor := .OneMinusSrcAlpha }
        color := { operation := .Add, src_factor := .One, dst_factor := .OneMinusSrcAlpha } }
    -- Case 8: Screen Blend Mode, Premultiplied Alpha
    | true =>
      { alpha := { operation := .Add, src_factor := .OneMinusSrc,
                   dst_factor := .OneMinusSrcAlpha }
        color := { operation := .Add, src_factor := .One, dst_factor := .OneMinusSrcAlpha } }

/-- The policy table of spec §4.2, written from the SPEC's table (rows
"Mode | Alpha=false (src,dst) color / alpha | Alpha=true ..."), for the
refinement comparison of claim C1.  Every operation is `Add`. -/
def specBlendResolve (mode : BlendMode) (premultiplied_alpha : Bool) : BlendState :=
  let mk := fun (cs cd as ad : BlendFactor) =>
    { color := { operation := .Add, src_factor := cs, dst_factor := cd }
      alpha := { operation := .Add, src_factor := as, dst_factor := ad } : BlendState }
  match mode, premultiplied_alpha with
  | .Additive, false => mk .SrcAlpha .One .One .One
  | .Additive, true => mk .One .One .One .One
  | .Multiply, _ => mk .Dst .OneMinusSrcAlpha .OneMinusSrcAlpha .OneMinusSrcAlpha
  | .Normal, false => mk .SrcAlpha .OneMinusSrcAlpha .One .OneMinusSrcAlpha
  | .Normal, true => mk .One .OneMinusSrcAlpha .One .OneMinusSrcAlpha
  | .Screen, _ => mk .One .OneMinusSrcAlpha .OneMinusSrc .OneMinusSrcAlpha

/-! ## Textures, samplers and the texture cache (src/renderer/wgpu.rs) -/

/-- `wgpu::TextureFormat` (the formats this crate touches).  The egui
render target is typically one of the `Bgra8`/`Rgba8` pairs; textures are
created as `Rgba8Unorm` or `Rgba8UnormSrgb`. -/
inductive TextureFormat
  | Rgba8Unorm
  | Rgba8UnormSrgb
  | Bgra8Unorm
  | Bgra8UnormSrgb
  deriving DecidableEq, Repr

/-- `wgpu::TextureFormat::is_srgb`. -/
def TextureFormat.is_srgb : TextureFormat → Bool
  | .Rgba8UnormSrgb => true
  | .Bgra8UnormSrgb => true
  | _ => false

/-- `wgpu::AddressMode` (the variants produced by `convert_wrap`). -/
inductive AddressMode
  | ClampToEdge
  | Repeat
  | MirrorRepeat
  deriving DecidableEq, Repr

/-- `wgpu::FilterMode` (the variants produced by `convert_filter`). -/
inductive FilterMode
  | Nearest
  | Linear
  deriving DecidableEq, Repr

/-- `SamplerDescriptor<'static>` as populated by `set_spine_callbacks`
(`src/renderer/wgpu.rs` lines 377–387): the four fields the crate sets,
the rest being wgpu defaults. -/
structure SamplerDesc where
  address_mode_u : AddressMode
  address_mode_v : AddressMode
  mag_filter : FilterMode
  min_filter : FilterMode
  deriving DecidableEq, Repr

/-- The result of `image::load_from_memory(...).to_rgba8()`: an RGBA8
bitmap with its dimensions.  Decoding (`std::fs::read` + the `image`
crate) is an external collaborator and is passed into the paint path as
a function `String → Option Img`; `none` models an `io`/decode error. -/
structure Img where
  width : Nat
  height : Nat
  deriving DecidableEq, Repr

/-- A created `wgpu::RenderPipeline`, identified by the inputs
`create_render_pipeline` bakes into it: the resolved blend state and the
surface (color-target) format. -/
structure Pipeline where
  blend : BlendState
  target_format : TextureFormat
  deriving DecidableEq, Repr

/-- A created texture bind group, identified by the inputs
`create_texture_bind_group` bakes into it: the decoded image's source
path and dimensions, the texture format chosen, the sampler, and whether
the sRGB re-premultiplication loop ran over the pixels. -/
structure BindGroup where
  path : String
  width : Nat
  height : Nat
  format : TextureFormat
  sampler : SamplerDesc
  pixels_corrected : Bool
  deriving DecidableEq, Repr

/-- The `WgpuTexture` slot enum (`src/renderer/wgpu.rs` lines 344–355):
the per-attachment texture-cache state machine.  `Loaded` buffers are
recorded by their byte capacity (`size` passed to `create_buffer`). -/
inductive WgpuTexture
  | Loading (path : String) (sampler_desc : SamplerDesc)
  | Loaded (pipeline : Pipeline) (vertex_buffer : Nat) (index_buffer : Nat)
      (texture_bind_group : BindGroup)
  deriving DecidableEq, Repr

/-- The fields of `WgpuResources` the paint path branches on.  The
device/queue/shader/layout handles are opaque GPU objects; the only
datum the modelled code inspects is the surface format. -/
structure WgpuResources where
  surface_format : TextureFormat
  deriving DecidableEq, Repr

/-- `WgpuResources::create_render_pipeline` (lines 215–248): the pipeline
is configured with the given blend state against the surface format. -/
def create_render_pipeline (res : WgpuResources) (blend_state : BlendState) : Pipeline :=
  { blend := blend_state, target_format := res.surface_format }

/-- `WgpuResources::create_texture_bind_group` (lines 250–340).  Reads
and decodes the image at `path` (modelled by the external `decode`
function; `none` covers both the `std::fs::read` error and the
`image::load_from_memory` error), optionally re-premultiplies the pixels
when the surface is sRGB and the content is premultiplied, then picks
`Rgba8UnormSrgb` when the surface format is sRGB and `Rgba8Unorm`
otherwise, and builds the texture + sampler bind group. -/
def create_texture_bind_group (res : WgpuResources) (decode : String → Option Img)
    (path : String) (premultiplied_alpha : Bool) (sampler_desc : SamplerDesc) :
    Except Unit BindGroup :=
  match decode path with
  | none => .error ()
  | some image =>
    let corrected := res.surface_format.is_srgb && premultiplied_alpha
    let format : TextureFormat :=
      if res.surface_format.is_srgb then .Rgba8UnormSrgb else .Rgba8Unorm
    .ok { path := path, width := image.width, height := image.height,
          format := format, sampler := sampler_desc, pixels_corrected := corrected }

/-- Claim C7's reading of the format policy, written from the SPEC's
words ("use sRGB-aware format when the output surface is sRGB and
content is premultiplied; otherwise linear unorm"), for comparison with
the format `create_texture_bind_group` actually chooses. -/
def specTextureFormat (surface_srgb premultiplied_alpha : Bool) : TextureFormat :=
  if surface_srgb && premultiplied_alpha then .Rgba8UnormSrgb else .Rgba8Unorm

/-! ## Meshes and the paint loop (src/renderer.rs, src/renderer/wgpu.rs) -/

/-- One `Mesh` as produced by `Meshes::iter` (`src/renderer.rs` lines
183–214): vertices (each 48 bytes: two `Vec2` + two `Vec4`, `repr(C)`),
a `u16` index list, the blend tag, the premultiplied-alpha flag and the
optional attachment renderer-object pointer.  Only the vertex COUNT is
inspected by the paint path's control flow, so a vertex is abstracted to
a unit and the list keeps the count. -/
structure Mesh where
  vertices : List Unit
  indices : List Nat
  blend_mode : BlendMode
  premultiplied_alpha : Bool
  attachment : Option Nat
  deriving DecidableEq, Repr

/-- `size_of::<Vertex>()`: `position: Vec2` (8) + `uv: Vec2` (8) +
`color: Vec4` (16) + `dark_color: Vec4` (16) = 48 bytes (`repr(C)`,
divisible by `COPY_BUFFER_ALIGNMENT`). -/
def vertexSize : Nat := 48

/-- `wgpu::COPY_BUFFER_ALIGNMENT` = 4 bytes. -/
def copyBufferAlignment : Nat := 4

/-- The `vertex_buffer_size` computation (line 139):
`mesh.vertices.len() * size_of::<Vertex>()`. -/
def vertexBufferSize (vertices_len : Nat) : Nat :=
  vertices_len * vertexSize

/-- The `padded_index_buffer_size` computation (lines 144–151): pad the
index count to `COPY_BUFFER_ALIGNMENT` by adding one when not divisible,
then multiply by `size_of::<u16>()`. -/
def paddedIndexBufferSize (indices_len : Nat) : Nat :=
  let len := if indices_len % copyBufferAlignment == 0 then indices_len else indices_len + 1
  len * 2

/-- The `nonzero` helper (lines 396–398): `NonZero::new(val)` is `none`
exactly on zero; the call site's `.expect("value is not zero")` panics
in that case. -/
def nonzero (val : Nat) : Option Nat :=
  if val = 0 then none else some val

/-- The GPU/engine side effects the paint path performs, recorded in
order.  Creation effects carry the attachment key of the slot they
materialize so that per-attachment creation work can be counted. -/
inductive Effect
  | sceneSetup
  | resolveBlend (bs : BlendState)
  | slotAccess (key : Nat)
  | createBuffer (key : Nat) (size : Nat)
  | createPipeline (key : Nat)
  | decode (key : Nat) (path : String)
  | createTexture (key : Nat) (format : TextureFormat)
  | writeBuffer (size : Nat)
  | setPipeline
  | setBindGroup
  | drawIndexed (n : Nat)
  deriving DecidableEq, Repr

/-- Outcome of a piece of the paint path: a value plus the effect trace,
or a Rust panic (message plus the effects already performed). -/
inductive StepResult (α : Type)
  | ok (val : α) (effects : List Effect)
  | panic (msg : String) (effects : List Effect)
  deriving DecidableEq, Repr

/-- The per-attachment slot store: what `mesh.renderer_object()` gives
access to, keyed by the attachment pointer.  Every attachment that
occurs has had its slot set by the `set_create_texture_cb` callback. -/
def Slots : Type := Nat → WgpuTexture

/-- The tail of the loop body once a `Loaded` slot is at hand (lines
193–209): the two `write_buffer_with` calls guarded by `nonzero` (a
`write_buffer_with` whose range exceeds the buffer's capacity fails
wgpu validation, returns `None`, and the copy is skipped), then
`set_pipeline`, `set_bind_group`, `set_vertex_buffer`,
`set_index_buffer`, `draw_indexed(0..indices_len)`. -/
def writeAndDraw (slot : WgpuTexture) (vertex_buffer_size padded_index_buffer_size
    indices_len : Nat) : StepResult Unit :=
  match slot with
  | .Loading _ _ => .panic "internal error: entered unreachable code" []
  | .Loaded _ vertex_cap index_cap _ =>
    match nonzero vertex_buffer_size with
    | none => .panic "value is not zero" []
    | some _ =>
      let e1 := if vertex_buffer_size ≤ vertex_cap then
        [Effect.writeBuffer vertex_buffer_size] else []
      match nonzero padded_index_buffer_size with
      | none => .panic "value is not zero" e1
      | some _ =>
        let e2 := e1 ++ (if padded_index_buffer_size ≤ index_cap then
          [Effect.writeBuffer padded_index_buffer_size] else [])
        .ok () (e2 ++ [.setPipeline, .setBindGroup, .drawIndexed indices_len])

/-- One iteration of the paint loop of `RendererCallback::paint`
(`src/renderer/wgpu.rs` lines 125–210) over one mesh:

1. `continue` on an empty vertex list (before any other work);
2. resolve the blend state;
3. `mesh.renderer_object::<WgpuTexture>()` — `continue` when the
   attachment pointer is `None`, otherwise access the slot;
4. compute `vertex_buffer_size` and `padded_index_buffer_size`;
5. on a `Loading` slot: create the vertex and index buffers sized to
   this mesh, create the pipeline for the resolved blend state, build
   the texture bind group (decoding the image — `.unwrap()` panics on a
   decode error), and store `Loaded` into the slot;
6. upload and draw via `writeAndDraw`. -/
def paintBody (res : WgpuResources) (decode : String → Option Img) (mesh : Mesh)
    (slots : Slots) : StepResult Slots :=
  if mesh.vertices.isEmpty then .ok slots []
  else
    let blend_state := intoBlendState mesh.blend_mode mesh.premultiplied_alpha
    match mesh.attachment with
    | none => .ok slots [.resolveBlend blend_state]
    | some key =>
      let effs0 := [Effect.resolveBlend blend_state, Effect.slotAccess key]
      let vbs := vertexBufferSize mesh.vertices.length
      let pibs := paddedIndexBufferSize mesh.indices.length
      match slots key with
      | .Loading path sampler_desc =>
        let effs1 := effs0 ++ [Effect.createBuffer key vbs, Effect.createBuffer key pibs,
          Effect.createPipeline key, Effect.decode key path]
        match create_texture_bind_group res decode path mesh.premultiplied_alpha
            sampler_desc with
        | .error _ => .panic "called Result::unwrap on an Err value" effs1
        | .ok texture_bind_group =>
          let pipeline := create_render_pipeline res blend_state
          let loaded := WgpuTexture.Loaded pipeline vbs pibs texture_bind_group
          let effs2 := effs1 ++ [Effect.createTexture key texture_bind_group.format]
          match writeAndDraw loaded vbs pibs mesh.indices.length with
          | .panic msg e => .panic msg (effs2 ++ e)
          | .ok _ e => .ok (Function.update slots key loaded) (effs2 ++ e)
      | .Loaded pipeline vertex_cap index_cap texture_bind_group =>
        match writeAndDraw (.Loaded pipeline vertex_cap index_cap texture_bind_group)
            vbs pibs mesh.indices.length with
        | .panic msg e => .panic msg (effs0 ++ e)
        | .ok _ e => .ok slots (effs0 ++ e)

/-- The paint loop (`for mesh in self.meshes.iter()`), folding
`paintBody` over the frame's mesh sequence in order.  A panic unwinds
the whole frame. -/
def paintMeshes (res : WgpuResources) (decode : String → Option Img) :
    List Mesh → Slots → StepResult Slots
  | [], slots => .ok slots []
  | mesh :: rest, slots =>
    match paintBody res decode mesh slots with
    | .panic msg e => .panic msg e
    | .ok slots1 e =>
      match paintMeshes res decode rest slots1 with
      | .panic msg e2 => .panic msg (e ++ e2)
      | .ok slots2 e2 => .ok slots2 (e ++ e2)

/-- `RendererCallback::paint` as a whole (lines 96–211): create the
scene uniform buffer and bind group and bind it at slot 0 (recorded as
one `sceneSetup` effect), then run the mesh loop. -/
def paint (res : WgpuResources) (decode : String → Option Img) (meshes : List Mesh)
    (slots : Slots) : StepResult Slots :=
  match paintMeshes res decode meshes slots with
  | .panic msg e => .panic msg (Effect.sceneSetup :: e)
  | .ok s e => .ok s (Effect.sceneSetup :: e)

/-- `paintBody` over a sequence of frames, the same slot store threaded
through, one mesh drawn per frame (spec §4.4 invokes the frame renderer
once per widget draw; the scene-setup prefix of `paint` is independent
of the slots and elided here). -/
def runFrames (res : WgpuResources) (decode : String → Option Img) :
    List Mesh → Slots → StepResult Slots
  | [], slots => .ok slots []
  | mesh :: rest, slots =>
    match paintBody res decode mesh slots with
    | .panic msg e => .panic msg e
    | .ok slots1 e =>
      match runFrames res decode rest slots1 with
      | .panic msg e2 => .panic msg (e ++ e2)
      | .ok slots2 e2 => .ok slots2 (e ++ e2)

/-- Is this effect part of the texture-cache creation path for the slot
keyed `key` (buffer allocation, pipeline creation, image decode, texture
allocation)? -/
def isCreationFor (key : Nat) : Effect → Bool
  | .createBuffer k _ => k == key
  | .createPipeline k => k == key
  | .decode k _ => k == key
  | .createTexture k _ => k == key
  | _ => false

/-- Number of creation-path effects for `key` in a trace. -/
def creationCount (key : Nat) (effects : List Effect) : Nat :=
  (effects.filter (isCreationFor key)).length

/-- Is this effect an image decode for the slot keyed `key`? -/
def isDecodeFor (key : Nat) : Effect → Bool
  | .decode k _ => k == key
  | _ => false

/-- Number of image decodes for `key` in a trace. -/
def decodeCount (key : Nat) (effects : List Effect) : Nat :=
  (effects.filter (isDecodeFor key)).length

/-! ## The widget draw entry point and the constructor (src/lib.rs) -/

/-- The state of one `Spine` widget instance relevant to the draw entry
point.  `pending_callbacks` counts the `RendererCallback`s queued in the
painter that still hold an `Arc` clone of `self.controller` (each
`Meshes` stores one; egui drops it when the render pass consumes the
callback), so the controller `Arc`'s strong count is
`1 + pending_callbacks` and `Arc::get_mut` succeeds exactly when
`pending_callbacks = 0`.  `controller_time` is the simulation clock the
engine's `update(dt, ...)` advances; delta times are modelled as exact
rationals. -/
structure SpineState where
  pending_callbacks : Nat
  controller_time : ℚ
  deriving DecidableEq

/-- Outcome of `<&mut Spine as Widget>::ui`: the updated state together
with the delta actually passed to `controller.update`, or the
re-entrancy panic. -/
inductive UiResult
  | ok (state : SpineState) (dt_passed : ℚ)
  | panic (msg : String)
  deriving DecidableEq

/-- The delta-time flooring of line 109:
`ui.input(|i| i.stable_dt).max(0.001)`. -/
def clampDt (stable_dt : ℚ) : ℚ :=
  max stable_dt (1 / 1000)

/-- `<&mut Spine as Widget>::ui` (`src/lib.rs` lines 101–131):
`Arc::get_mut(&mut self.controller)` fails (strong count > 1, i.e. a
previous frame's callback still holds a clone) — panic; otherwise floor
the host delta, advance the engine, build the `Meshes` (storing a fresh
`Arc` clone inside the queued `RendererCallback`), and return. -/
def uiStep (s : SpineState) (stable_dt : ℚ) : UiResult :=
  if s.pending_callbacks ≠ 0 then
    .panic "Tried to render the same Spine model multiple times in the same render pass"
  else
    let dt := clampDt stable_dt
    .ok { pending_callbacks := s.pending_callbacks + 1,
          controller_time := s.controller_time + dt } dt

/-- `AnimationId` (`src/lib.rs` lines 244–248). -/
inductive AnimationId
  | Index (i : Nat)
  | Name (n : String)
  deriving DecidableEq, Repr

/-- `rusty_spine::SpineError` (the variant this crate constructs, plus a
catch-all for errors propagated from the engine). -/
inductive SpineError
  | NotFound (what : String) (name : String)
  | Other (msg : String)
  deriving DecidableEq, Repr

/-- The skeleton data visible to `Spine::__new`: the ordered animation
list (`controller.skeleton.data().animations()`), by name. -/
structure SkeletonDataM where
  animations : List String
  deriving DecidableEq, Repr

/-- The animation-selection part of `Spine::__new` (`src/lib.rs` lines
61–76).  Atlas/skeleton file loading (the earlier `?` propagations) is
presumed successful, as the claim concerns the animation lookup.  The
engine call `set_animation_by_name` is an external collaborator passed
in as `set_by_name`; on `AnimationId::Index(i)`, the code walks
`animations().nth(i)` and on `None` returns
`SpineError::NotFound { what: "Animation", name: index.to_string() }`;
on `AnimationId::Name`, the engine error is propagated by `?`. -/
def spineNew (skel : SkeletonDataM) (set_by_name : String → Except SpineError Unit)
    (id : AnimationId) : Except SpineError SpineState :=
  match id with
  | .Index index =>
    match skel.animations[index]? with
    | some _ => .ok { pending_callbacks := 0, controller_time := 0 }
    | none => .error (.NotFound "Animation" (toString index))
  | .Name name =>
    match set_by_name name with
    | .ok _ => .ok { pending_callbacks := 0, controller_time := 0 }
    | .error e => .error e

/-! ## Concrete fixtures used by witnesses and counterexamples -/

/-- A plain clamp-to-edge, linear sampler, as `set_spine_callbacks`
would build for an atlas page with default wrap/filter modes. -/
def sampleSampler : SamplerDesc :=
  { address_mode_u := .ClampToEdge, address_mode_v := .ClampToEdge,
    mag_filter := .Linear, min_filter := .Linear }

/-- A registry whose surface format is the usual sRGB swapchain format. -/
def srgbRes : WgpuResources := { surface_format := .Bgra8UnormSrgb }

/-- A decoder that succeeds on every path with a 2×2 bitmap. -/
def decodeOk : String → Option Img := fun _ => some { width := 2, height := 2 }

/-- A decoder that fails on every path (missing or corrupt file). -/
def decodeFail : String → Option Img := fun _ => none

/-- A quad mesh: 4 vertices, indices `[0,1,2,0,2,3]` (6 of them, padded
index size `(6+1)*2 = 14`... the padding applies since `6 % 4 ≠ 0`),
Normal blend, non-premultiplied, attachment key 0. -/
def quadMesh : Mesh :=
  { vertices := [(), (), (), ()], indices := [0, 1, 2, 0, 2, 3],
    blend_mode := .Normal, premultiplied_alpha := false, attachment := some 0 }

/-- A slot store where every key is still `Loading` from "page.png". -/
def loadingSlots : Slots := fun _ => .Loading "page.png" sampleSampler

/-- A loaded resource bundle as the first draw of `quadMesh` under
`srgbRes`/`decodeOk` would cache it. -/
def quadLoaded : WgpuTexture :=
  .Loaded (create_render_pipeline srgbRes (intoBlendState .Normal false))
    (vertexBufferSize 4) (paddedIndexBufferSize 6)
    { path := "page.png", width := 2, height := 2, format := .Rgba8UnormSrgb,
      sampler := sampleSampler, pixels_corrected := false }

/-- A slot store where every key holds `quadLoaded`. -/
def loadedSlots : Slots := fun _ => quadLoaded

/-- A one-vertex mesh whose index list is empty (the triangle list
contributes no indices), attachment key 0. -/
def noIndexMesh : Mesh :=
  { vertices := [()], indices := [], blend_mode := .Normal,
    premultiplied_alpha := false, attachment := some 0 }

/-- A zero-vertex mesh (a fully hidden attachment produces one). -/
def emptyMesh : Mesh :=
  { vertices := [], indices := [], blend_mode := .Additive,
    premultiplied_alpha := true, attachment := some 1 }

/-- The panic message of a step, if it panicked. -/
def StepResult.panicMsg {α : Type} : StepResult α → Option String
  | .panic msg _ => some msg
  | .ok _ _ => none

/-! ## Claims -/

/-- C1: `SpineBlendMode::into_blend_state` is total over the 8
(blend mode, premultiplied-alpha) pairs and returns exactly the
(operation, source-factor, destination-factor) triples of the policy
table in spec §4.2: every color and alpha operation is `Add`, and for
`Multiply` and `Screen` the state is identical for both values of the
flag. -/
theorem blend_state_matches_spec_table (mode : BlendMode) (premultiplied_alpha : Bool) :
    intoBlendState mode premultiplied_alpha = specBlendResolve mode premultiplied_alpha ∧
    (intoBlendState mode premultiplied_alpha).color.operation = .Add ∧
    (intoBlendState mode premultiplied_alpha).alpha.operation = .Add ∧
    intoBlendState .Multiply true = intoBlendState .Multiply false ∧
    intoBlendState .Screen true = intoBlendState .Screen false := by
  cases mode <;> cases premultiplied_alpha <;> exact ⟨rfl, rfl, rfl, rfl, rfl⟩

/-- C7 counterexample: with an sRGB surface and premultiplied-alpha
`false`, `create_texture_bind_group` still chooses `Rgba8UnormSrgb`
(the flag only gates the pixel-premultiplication loop), while the
claim's policy (`specTextureFormat`) demands linear `Rgba8Unorm` there. -/
theorem texture_format_claim_counterexample :
    create_texture_bind_group srgbRes decodeOk "page.png" false sampleSampler =
      .ok { path := "page.png", width := 2, height := 2, format := .Rgba8UnormSrgb,
            sampler := sampleSampler, pixels_corrected := false } ∧
    specTextureFormat true false = .Rgba8Unorm ∧
    TextureFormat.Rgba8UnormSrgb ≠ specTextureFormat true false := by
  exact ⟨rfl, rfl, by decide⟩

/-- C7 (amended): when a texture slot is materialized, the texture
format is `Rgba8UnormSrgb` exactly when the output surface format is
sRGB, independently of the premultiplied-alpha flag; the flag (together
with the surface being sRGB) only decides whether the pixel
re-premultiplication correction runs. -/
theorem texture_format_srgb_iff_surface (res : WgpuResources) (decode : String → Option Img)
    (path : String) (premultiplied_alpha : Bool) (sampler_desc : SamplerDesc) (img : Img)
    (hdec : decode path = some img) :
    ∃ bg, create_texture_bind_group res decode path premultiplied_alpha sampler_desc = .ok bg ∧
      (bg.format = .Rgba8UnormSrgb ↔ res.surface_format.is_srgb = true) ∧
      bg.pixels_corrected = (res.surface_format.is_srgb && premultiplied_alpha) := by
  refine ⟨{ path := path, width := img.width, height := img.height,
            format := if res.surface_format.is_srgb then .Rgba8UnormSrgb else .Rgba8Unorm,
            sampler := sampler_desc,
            pixels_corrected := res.surface_format.is_srgb && premultiplied_alpha },
    ?_, ?_, rfl⟩
  · unfold create_texture_bind_group
    rw [hdec]
  · cases hs : res.surface_format.is_srgb <;> simp [hs]

/-- C7 witness: the amended theorem applied at a concrete sRGB surface,
a succeeding decoder and flag `false`. -/
theorem texture_format_srgb_iff_surface_witness :
    decodeOk "page.png" = some { width := 2, height := 2 } ∧
    ∃ bg, create_texture_bind_group srgbRes decodeOk "page.png" false sampleSampler = .ok bg ∧
      (bg.format = .Rgba8UnormSrgb ↔ srgbRes.surface_format.is_srgb = true) ∧
      bg.pixels_corrected = (srgbRes.surface_format.is_srgb && false) :=
  ⟨rfl, texture_format_srgb_iff_surface srgbRes decodeOk "page.png" false sampleSampler
    { width := 2, height := 2 } rfl⟩

/-- C8: the widget draw entry point passes
`max(stable_dt, 0.001)` to the engine's `update`: inputs `≤ 0` are
clamped to exactly `1/1000` and inputs above `1/1000` pass through. -/
theorem delta_time_floored (s : SpineState) (stable_dt : ℚ)
    (h : s.pending_callbacks = 0) :
    uiStep s stable_dt =
      .ok { pending_callbacks := 1,
            controller_time := s.controller_time + clampDt stable_dt }
        (clampDt stable_dt) ∧
    clampDt stable_dt = max stable_dt (1 / 1000) ∧
    (stable_dt ≤ 0 → clampDt stable_dt = 1 / 1000) ∧
    (1 / 1000 < stable_dt → clampDt stable_dt = stable_dt) := by
  refine ⟨by simp [uiStep, h], rfl, fun hle => ?_, fun hlt => ?_⟩
  · have hle1 : stable_dt ≤ (1 : ℚ) / 1000 := by linarith
    exact max_eq_right hle1
  · exact max_eq_left hlt.le

/-- C8 witness: a reported delta of `-1/2` on an idle instance is
floored to `1/1000`. -/
theorem delta_time_floored_witness :
    (SpineState.mk 0 0).pending_callbacks = 0 ∧
    (uiStep (SpineState.mk 0 0) (-(1 / 2)) =
        .ok { pending_callbacks := 1, controller_time := 0 + clampDt (-(1 / 2)) }
          (clampDt (-(1 / 2))) ∧
      clampDt (-(1 / 2)) = max (-(1 / 2)) (1 / 1000) ∧
      ((-(1 / 2) : ℚ) ≤ 0 → clampDt (-(1 / 2)) = 1 / 1000) ∧
      ((1 : ℚ) / 1000 < -(1 / 2) → clampDt (-(1 / 2)) = -(1 / 2))) :=
  ⟨rfl, delta_time_floored (SpineState.mk 0 0) (-(1 / 2)) rfl⟩

/-- C5: drawing the same `Spine` instance a second time while the first
invocation's render-pass callback still holds the controller `Arc`
(so `Arc::get_mut` fails) panics with the re-entrancy message instead of
proceeding. -/
theorem reentrant_draw_panics (s : SpineState) (dt1 dt2 : ℚ)
    (h : s.pending_callbacks = 0) :
    ∃ s1 d1, uiStep s dt1 = .ok s1 d1 ∧
      uiStep s1 dt2 =
        .panic "Tried to render the same Spine model multiple times in the same render pass" := by
  refine ⟨{ pending_callbacks := s.pending_callbacks + 1,
            controller_time := s.controller_time + clampDt dt1 }, clampDt dt1, ?_, ?_⟩
  · simp [uiStep, h]
  · simp [uiStep]

/-- C5 witness: two back-to-back draws of a fresh instance within one
render pass — the second panics. -/
theorem reentrant_draw_panics_witness :
    (SpineState.mk 0 0).pending_callbacks = 0 ∧
    ∃ s1 d1, uiStep (SpineState.mk 0 0) 1 = .ok s1 d1 ∧
      uiStep s1 1 =
        .panic "Tried to render the same Spine model multiple times in the same render pass" :=
  ⟨rfl, reentrant_draw_panics (SpineState.mk 0 0) 1 1 rfl⟩

/-- C9: `Spine::__new` with `AnimationId::Index(i)` and no animation at
index `i` fails with `SpineError::NotFound` carrying the index rendered
as the name, producing no instance; with `AnimationId::Name`, a lookup
failure propagates the engine's error and likewise fails construction. -/
theorem animation_lookup_failure (skel : SkeletonDataM)
    (set_by_name : String → Except SpineError Unit) (i : Nat) (n : String) (e : SpineError)
    (hi : skel.animations.length ≤ i) (hn : set_by_name n = .error e) :
    spineNew skel set_by_name (.Index i) = .error (.NotFound "Animation" (toString i)) ∧
    (∀ s, spineNew skel set_by_name (.Index i) ≠ .ok s) ∧
    spineNew skel set_by_name (.Name n) = .error e ∧
    (∀ s, spineNew skel set_by_name (.Name n) ≠ .ok s) := by
  have hnone : skel.animations[i]? = none := List.getElem?_eq_none hi
  refine ⟨by simp [spineNew, hnone], ?_, by simp [spineNew, hn], ?_⟩
  · intro s
    simp [spineNew, hnone]
  · intro s
    simp [spineNew, hn]

/-- C9 witness: an empty skeleton with index 3 requested, and an engine
that reports "walk" as not found. -/
theorem animation_lookup_failure_witness :
    (SkeletonDataM.mk []).animations.length ≤ 3 ∧
    ((fun _ => Except.error (SpineError.NotFound "Animation" "walk") :
        String → Except SpineError Unit) "walk" =
      .error (.NotFound "Animation" "walk")) ∧
    spineNew (SkeletonDataM.mk [])
        (fun _ => Except.error (SpineError.NotFound "Animation" "walk")) (.Index 3) =
      .error (.NotFound "Animation" (toString 3)) :=
  ⟨by decide, rfl,
    (animation_lookup_failure (SkeletonDataM.mk [])
      (fun _ => Except.error (SpineError.NotFound "Animation" "walk")) 3 "walk"
      (SpineError.NotFound "Animation" "walk") (by decide) rfl).1⟩

/-- C2: the paint path evaluated at a batch whose slot is `Loading` and
whose image fails to decode.  The `.unwrap()` on
`create_texture_bind_group`'s result panics, aborting the whole frame —
the code does NOT skip the batch, log and leave the slot retryable as
the spec demands (the source's own FIXME at the call site records the
intended behavior: "Any error here should be ignored and logged to the
user"). -/
theorem decode_failure_aborts_frame :
    paint srgbRes decodeFail [quadMesh] loadingSlots =
      .panic "called Result::unwrap on an Err value"
        [.sceneSetup, .resolveBlend (intoBlendState .Normal false), .slotAccess 0,
         .createBuffer 0 (vertexBufferSize 4), .createBuffer 0 (paddedIndexBufferSize 6),
         .createPipeline 0, .decode 0 "page.png"] := rfl

/-- C6: a batch with zero vertices is skipped before any work — no
buffer upload, no blend-state resolution, no texture-slot access or
creation, no pipeline bind, no draw call (its effect trace is empty and
the slot store is untouched) — and the remaining batches of the frame
are processed exactly as if the empty batch were absent. -/
theorem zero_vertex_batch_skipped (res : WgpuResources) (decode : String → Option Img)
    (mesh : Mesh) (rest : List Mesh) (slots : Slots) (hv : mesh.vertices = []) :
    paintBody res decode mesh slots = .ok slots [] ∧
    paintMeshes res decode (mesh :: rest) slots = paintMeshes res decode rest slots := by
  have h1 : paintBody res decode mesh slots = .ok slots [] := by
    simp [paintBody, hv]
  refine ⟨h1, ?_⟩
  cases h2 : paintMeshes res decode rest slots <;> simp [paintMeshes, h1, h2]

/-- C6 witness: an empty batch followed by the quad batch over loaded
slots. -/
theorem zero_vertex_batch_skipped_witness :
    emptyMesh.vertices = [] ∧
    (paintBody srgbRes decodeOk emptyMesh loadedSlots = .ok loadedSlots [] ∧
      paintMeshes srgbRes decodeOk (emptyMesh :: [quadMesh]) loadedSlots =
        paintMeshes srgbRes decodeOk [quadMesh] loadedSlots) :=
  ⟨rfl, zero_vertex_batch_skipped srgbRes decodeOk emptyMesh [quadMesh] loadedSlots rfl⟩

/-- C10: a batch with at least one vertex but an empty index list, whose
slot already holds a `Loaded` bundle, panics the paint path: the padded
index-buffer size computes to zero, `NonZero::new(0)` is `None`, and the
`expect("value is not zero")` in the `nonzero` helper panics instead of
skipping the batch or drawing zero indices. -/
theorem empty_index_list_panics (res : WgpuResources) (decode : String → Option Img)
    (mesh : Mesh) (key : Nat) (pipeline : Pipeline) (vertex_cap index_cap : Nat)
    (texture_bind_group : BindGroup) (slots : Slots)
    (hv : mesh.vertices ≠ []) (hi : mesh.indices = [])
    (hatt : mesh.attachment = some key)
    (hslot : slots key = .Loaded pipeline vertex_cap index_cap texture_bind_group) :
    paddedIndexBufferSize mesh.indices.length = 0 ∧
    nonzero 0 = none ∧
    (paintBody res decode mesh slots).panicMsg = some "value is not zero" := by
  have hp : paddedIndexBufferSize mesh.indices.length = 0 := by rw [hi]; rfl
  have hlen : mesh.vertices.length ≠ 0 := by
    intro h0
    exact hv (List.eq_nil_of_length_eq_zero h0)
  have hvbs : vertexBufferSize mesh.vertices.length ≠ 0 :=
    Nat.mul_ne_zero hlen (by decide)
  have hne : mesh.vertices.isEmpty = false := by
    cases hveq : mesh.vertices with
    | nil => exact absurd hveq hv
    | cons a l => rfl
  refine ⟨hp, rfl, ?_⟩
  have hw : writeAndDraw (.Loaded pipeline vertex_cap index_cap texture_bind_group)
      (vertexBufferSize mesh.vertices.length) (paddedIndexBufferSize mesh.indices.length)
      mesh.indices.length =
      .panic "value is not zero"
        (if vertexBufferSize mesh.vertices.length ≤ vertex_cap
          then [Effect.writeBuffer (vertexBufferSize mesh.vertices.length)] else []) := by
    simp [writeAndDraw, nonzero, hp, hvbs]
  simp only [paintBody, hne, Bool.false_eq_true, if_false, hatt, hslot, hw]
  rfl

/-- C10 witness: the one-vertex, zero-index mesh over loaded slots. -/
theorem empty_index_list_panics_witness :
    noIndexMesh.vertices ≠ [] ∧ noIndexMesh.indices = [] ∧
    noIndexMesh.attachment = some 0 ∧
    (paddedIndexBufferSize noIndexMesh.indices.length = 0 ∧
      nonzero 0 = none ∧
      (paintBody srgbRes decodeOk noIndexMesh loadedSlots).panicMsg =
        some "value is not zero") :=
  ⟨by simp [noIndexMesh], rfl, rfl,
    empty_index_list_panics srgbRes decodeOk noIndexMesh 0
      (create_render_pipeline srgbRes (intoBlendState .Normal false))
      (vertexBufferSize 4) (paddedIndexBufferSize 6)
      { path := "page.png", width := 2, height := 2, format := .Rgba8UnormSrgb,
        sampler := sampleSampler, pixels_corrected := false }
      loadedSlots (by simp [noIndexMesh]) rfl rfl rfl⟩

/-! ## Helper lemmas for the texture-cache claims -/

theorem creationCount_append (k : Nat) (a b : List Effect) :
    creationCount k (a ++ b) = creationCount k a + creationCount k b := by
  simp [creationCount, List.filter_append]

theorem decodeCount_append (k : Nat) (a b : List Effect) :
    decodeCount k (a ++ b) = decodeCount k a + decodeCount k b := by
  simp [decodeCount, List.filter_append]

/-- A paint-loop iteration over a mesh whose slot is already `Loaded`
returns the slot store untouched and performs no creation-path work for
any key: only uploads, binds and the draw call. -/
theorem paintBody_loaded_ok (res : WgpuResources) (decode : String → Option Img)
    (mesh : Mesh) (key : Nat) (pipeline : Pipeline) (vertex_cap index_cap : Nat)
    (texture_bind_group : BindGroup) (slots : Slots)
    (hatt : mesh.attachment = some key) (hv : mesh.vertices ≠ []) (hi : mesh.indices ≠ [])
    (hslot : slots key = .Loaded pipeline vertex_cap index_cap texture_bind_group) :
    ∃ e, paintBody res decode mesh slots = .ok slots e ∧
      ∀ k, creationCount k e = 0 ∧ decodeCount k e = 0 := by
  have hne : mesh.vertices.isEmpty = false := by
    cases hveq : mesh.vertices with
    | nil => exact absurd hveq hv
    | cons a l => rfl
  have hlen : mesh.vertices.length ≠ 0 := fun h0 => hv (List.eq_nil_of_length_eq_zero h0)
  have hvbs : vertexBufferSize mesh.vertices.length ≠ 0 :=
    Nat.mul_ne_zero hlen (by decide)
  have hilen : mesh.indices.length ≠ 0 := fun h0 => hi (List.eq_nil_of_length_eq_zero h0)
  have hpibs : paddedIndexBufferSize mesh.indices.length ≠ 0 := by
    have hif : (if mesh.indices.length % copyBufferAlignment == 0 then mesh.indices.length
        else mesh.indices.length + 1) ≠ 0 := by
      split
      · exact hilen
      · exact Nat.succ_ne_zero _
    exact Nat.mul_ne_zero hif (by decide)
  have hw : writeAndDraw (.Loaded pipeline vertex_cap index_cap texture_bind_group)
      (vertexBufferSize mesh.vertices.length) (paddedIndexBufferSize mesh.indices.length)
      mesh.indices.length =
      .ok ()
        ((if vertexBufferSize mesh.vertices.length ≤ vertex_cap
            then [Effect.writeBuffer (vertexBufferSize mesh.vertices.length)] else []) ++
          (if paddedIndexBufferSize mesh.indices.length ≤ index_cap
            then [Effect.writeBuffer (paddedIndexBufferSize mesh.indices.length)] else []) ++
          [.setPipeline, .setBindGroup, .drawIndexed mesh.indices.length]) := by
    simp [writeAndDraw, nonzero, hvbs, hpibs]
  refine ⟨[Effect.resolveBlend (intoBlendState mesh.blend_mode mesh.premultiplied_alpha),
      Effect.slotAccess key] ++
      ((if vertexBufferSize mesh.vertices.length ≤ vertex_cap
          then [Effect.writeBuffer (vertexBufferSize mesh.vertices.length)] else []) ++
        (if paddedIndexBufferSize mesh.indices.length ≤ index_cap
          then [Effect.writeBuffer (paddedIndexBufferSize mesh.indices.length)] else []) ++
        [.setPipeline, .setBindGroup, .drawIndexed mesh.indices.length]), ?_, ?_⟩
  · simp only [paintBody, hne, Bool.false_eq_true, if_false, hatt, hslot, hw]
  · intro k
    by_cases h1 : vertexBufferSize mesh.vertices.length ≤ vertex_cap <;>
      by_cases h2 : paddedIndexBufferSize mesh.indices.length ≤ index_cap <;>
        simp [creationCount, decodeCount, isCreationFor, isDecodeFor, h1, h2]

/-- Frames over an already-`Loaded` slot leave the store untouched and
perform no creation-path work for any key. -/
theorem runFrames_loaded_ok (res : WgpuResources) (decode : String → Option Img) (key : Nat)
    (pipeline : Pipeline) (vertex_cap index_cap : Nat) (texture_bind_group : BindGroup)
    (ms : List Mesh) :
    ∀ slots : Slots,
      (∀ m ∈ ms, m.attachment = some key ∧ m.vertices ≠ [] ∧ m.indices ≠ []) →
      slots key = .Loaded pipeline vertex_cap index_cap texture_bind_group →
      ∃ e, runFrames res decode ms slots = .ok slots e ∧
        ∀ k, creationCount k e = 0 ∧ decodeCount k e = 0 := by
  induction ms with
  | nil =>
    intro slots _ _
    exact ⟨[], rfl, fun k => ⟨rfl, rfl⟩⟩
  | cons m rest ih =>
    intro slots hms hslot
    obtain ⟨hatt, hv, hi⟩ := hms m (List.mem_cons_self m rest)
    obtain ⟨e1, h1, hc1⟩ := paintBody_loaded_ok res decode m key pipeline vertex_cap
      index_cap texture_bind_group slots hatt hv hi hslot
    obtain ⟨e2, h2, hc2⟩ := ih slots (fun m2 hm2 => hms m2 (List.mem_cons_of_mem m hm2)) hslot
    refine ⟨e1 ++ e2, ?_, fun k => ?_⟩
    · simp [runFrames, h1, h2]
    · exact ⟨by rw [creationCount_append, (hc1 k).1, (hc2 k).1],
        by rw [decodeCount_append, (hc1 k).2, (hc2 k).2]⟩

/-- The `Loaded` bundle the first draw of `mesh` materializes into a
`Loading { path, sd }` slot, given the decoded image: the pipeline for
the mesh's resolved blend state, vertex/index buffers sized to this
mesh, and the texture bind group. -/
def loadedBundle (res : WgpuResources) (mesh : Mesh) (path : String) (sd : SamplerDesc)
    (img : Img) : WgpuTexture :=
  .Loaded (create_render_pipeline res (intoBlendState mesh.blend_mode mesh.premultiplied_alpha))
    (vertexBufferSize mesh.vertices.length) (paddedIndexBufferSize mesh.indices.length)
    { path := path, width := img.width, height := img.height,
      format := if res.surface_format.is_srgb then .Rgba8UnormSrgb else .Rgba8Unorm,
      sampler := sd,
      pixels_corrected := res.surface_format.is_srgb && mesh.premultiplied_alpha }

/-- First draw of a mesh whose slot is `Loading`, with a succeeding
decode: the creation path runs (one decode) and the slot transitions to
the `Loaded` bundle. -/
theorem paintBody_loading_ok (res : WgpuResources) (decode : String → Option Img)
    (mesh : Mesh) (key : Nat) (path : String) (sd : SamplerDesc) (img : Img) (slots : Slots)
    (hatt : mesh.attachment = some key) (hv : mesh.vertices ≠ []) (hi : mesh.indices ≠ [])
    (hslot : slots key = .Loading path sd) (hdec : decode path = some img) :
    ∃ e, paintBody res decode mesh slots =
        .ok (Function.update slots key (loadedBundle res mesh path sd img)) e ∧
      decodeCount key e = 1 := by
  have hne : mesh.vertices.isEmpty = false := by
    cases hveq : mesh.vertices with
    | nil => exact absurd hveq hv
    | cons a l => rfl
  have hlen : mesh.vertices.length ≠ 0 := fun h0 => hv (List.eq_nil_of_length_eq_zero h0)
  have hvbs : vertexBufferSize mesh.vertices.length ≠ 0 :=
    Nat.mul_ne_zero hlen (by decide)
  have hilen : mesh.indices.length ≠ 0 := fun h0 => hi (List.eq_nil_of_length_eq_zero h0)
  have hpibs : paddedIndexBufferSize mesh.indices.length ≠ 0 := by
    have hif : (if mesh.indices.length % copyBufferAlignment == 0 then mesh.indices.length
        else mesh.indices.length + 1) ≠ 0 := by
      split
      · exact hilen
      · exact Nat.succ_ne_zero _
    exact Nat.mul_ne_zero hif (by decide)
  have hbg : create_texture_bind_group res decode path mesh.premultiplied_alpha sd =
      .ok { path := path, width := img.width, height := img.height,
            format := if res.surface_format.is_srgb then .Rgba8UnormSrgb else .Rgba8Unorm,
            sampler := sd,
            pixels_corrected := res.surface_format.is_srgb && mesh.premultiplied_alpha } := by
    unfold create_texture_bind_group
    rw [hdec]
  have hw : writeAndDraw (loadedBundle res mesh path sd img)
      (vertexBufferSize mesh.vertices.length) (paddedIndexBufferSize mesh.indices.length)
      mesh.indices.length =
      .ok ()
        [Effect.writeBuffer (vertexBufferSize mesh.vertices.length),
         Effect.writeBuffer (paddedIndexBufferSize mesh.indices.length),
         .setPipeline, .setBindGroup, .drawIndexed mesh.indices.length] := by
    simp [loadedBundle, writeAndDraw, nonzero, hvbs, hpibs]
  refine ⟨[Effect.resolveBlend (intoBlendState mesh.blend_mode mesh.premultiplied_alpha),
      Effect.slotAccess key,
      Effect.createBuffer key (vertexBufferSize mesh.vertices.length),
      Effect.createBuffer key (paddedIndexBufferSize mesh.indices.length),
      Effect.createPipeline key,
      Effect.decode key path,
      Effect.createTexture key
        (if res.surface_format.is_srgb then .Rgba8UnormSrgb else .Rgba8Unorm),
      Effect.writeBuffer (vertexBufferSize mesh.vertices.length),
      Effect.writeBuffer (paddedIndexBufferSize mesh.indices.length),
      Effect.setPipeline, Effect.setBindGroup,
      Effect.drawIndexed mesh.indices.length], ?_, ?_⟩
  · simp [paintBody, hne, hatt, hslot, hbg, loadedBundle] at hw ⊢
    simp [hw]
  · simp [decodeCount, isDecodeFor]

/-- C4: for a cached (already `Loaded`) attachment, any number of
subsequent frames triggers no buffer (re)allocation at all and leaves
the cached capacities untouched: the store is returned unchanged
(buffers are never shrunk nor replaced), and in particular a frame
requesting no more than the allocated capacity causes no reallocation;
"reallocated only when the required size exceeds the allocation" holds
a fortiori (the paint path performs no reallocation in the `Loaded`
state whatsoever — `write_buffer_with` uploads into the cached
buffers). -/
theorem buffer_capacity_growth_only (res : WgpuResources) (decode : String → Option Img)
    (key : Nat) (pipeline : Pipeline) (vertex_cap index_cap : Nat)
    (texture_bind_group : BindGroup) (ms : List Mesh) (slots : Slots)
    (hms : ∀ m ∈ ms, m.attachment = some key ∧ m.vertices ≠ [] ∧ m.indices ≠ [])
    (hslot : slots key = .Loaded pipeline vertex_cap index_cap texture_bind_group) :
    ∃ e, runFrames res decode ms slots = .ok slots e ∧
      creationCount key e = 0 ∧
      slots key = .Loaded pipeline vertex_cap index_cap texture_bind_group := by
  obtain ⟨e, h, hc⟩ := runFrames_loaded_ok res decode key pipeline vertex_cap index_cap
    texture_bind_group ms slots hms hslot
  exact ⟨e, h, (hc key).1, hslot⟩

/-- C4 witness: two further frames of the quad over its loaded slot. -/
theorem buffer_capacity_growth_only_witness :
    (∀ m ∈ [quadMesh, quadMesh], m.attachment = some 0 ∧ m.vertices ≠ [] ∧ m.indices ≠ []) ∧
    loadedSlots 0 = .Loaded (create_render_pipeline srgbRes (intoBlendState .Normal false))
      (vertexBufferSize 4) (paddedIndexBufferSize 6)
      { path := "page.png", width := 2, height := 2, format := .Rgba8UnormSrgb,
        sampler := sampleSampler, pixels_corrected := false } ∧
    ∃ e, runFrames srgbRes decodeOk [quadMesh, quadMesh] loadedSlots = .ok loadedSlots e ∧
      creationCount 0 e = 0 ∧
      loadedSlots 0 = .Loaded (create_render_pipeline srgbRes (intoBlendState .Normal false))
        (vertexBufferSize 4) (paddedIndexBufferSize 6)
        { path := "page.png", width := 2, height := 2, format := .Rgba8UnormSrgb,
          sampler := sampleSampler, pixels_corrected := false } :=
  ⟨by decide, rfl,
    buffer_capacity_growth_only srgbRes decodeOk 0
      (create_render_pipeline srgbRes (intoBlendState .Normal false))
      (vertexBufferSize 4) (paddedIndexBufferSize 6)
      { path := "page.png", width := 2, height := 2, format := .Rgba8UnormSrgb,
        sampler := sampleSampler, pixels_corrected := false }
      [quadMesh, quadMesh] loadedSlots (by decide) rfl⟩

/-- C3: for an attachment drawn over 1 + N frames starting from its
`Loading` slot, the creation path (image decode, buffer/pipeline/texture
creation, `Loading → Loaded` transition) executes exactly once, on the
first draw; every later frame runs on the cached bundle, the store never
changes again, and no decode or creation-path effect for that key occurs
after the first frame. -/
theorem texture_cache_creates_once (res : WgpuResources) (decode : String → Option Img)
    (first : Mesh) (rest : List Mesh) (key : Nat) (path : String) (sd : SamplerDesc)
    (img : Img) (slots : Slots)
    (hatt : first.attachment = some key) (hv : first.vertices ≠ []) (hi : first.indices ≠ [])
    (hrest : ∀ m ∈ rest, m.attachment = some key ∧ m.vertices ≠ [] ∧ m.indices ≠ [])
    (hslot : slots key = .Loading path sd) (hdec : decode path = some img) :
    ∃ slots1 e1 e2,
      paintBody res decode first slots = .ok slots1 e1 ∧
      slots1 key = loadedBundle res first path sd img ∧
      runFrames res decode rest slots1 = .ok slots1 e2 ∧
      decodeCount key e1 = 1 ∧
      creationCount key e2 = 0 ∧ decodeCount key e2 = 0 := by
  obtain ⟨e1, h1, hd1⟩ :=
    paintBody_loading_ok res decode first key path sd img slots hatt hv hi hslot hdec
  have hupd : Function.update slots key (loadedBundle res first path sd img) key =
      loadedBundle res first path sd img := Function.update_same key _ slots
  obtain ⟨e2, h2, hc2⟩ := runFrames_loaded_ok res decode key
    (create_render_pipeline res (intoBlendState first.blend_mode first.premultiplied_alpha))
    (vertexBufferSize first.vertices.length) (paddedIndexBufferSize first.indices.length)
    { path := path, width := img.width, height := img.height,
      format := if res.surface_format.is_srgb then .Rgba8UnormSrgb else .Rgba8Unorm,
      sampler := sd,
      pixels_corrected := res.surface_format.is_srgb && first.premultiplied_alpha }
    rest (Function.update slots key (loadedBundle res first path sd img)) hrest hupd
  exact ⟨Function.update slots key (loadedBundle res first path sd img), e1, e2,
    h1, hupd, h2, hd1, (hc2 key).1, (hc2 key).2⟩

/-- C3 witness: the quad drawn for three frames from a `Loading` slot
with a succeeding decoder — one decode total. -/
theorem texture_cache_creates_once_witness :
    quadMesh.attachment = some 0 ∧
    (∀ m ∈ [quadMesh, quadMesh], m.attachment = some 0 ∧ m.vertices ≠ [] ∧ m.indices ≠ []) ∧
    loadingSlots 0 = .Loading "page.png" sampleSampler ∧
    decodeOk "page.png" = some { width := 2, height := 2 } ∧
    ∃ slots1 e1 e2,
      paintBody srgbRes decodeOk quadMesh loadingSlots = .ok slots1 e1 ∧
      slots1 0 = loadedBundle srgbRes quadMesh "page.png" sampleSampler
        { width := 2, height := 2 } ∧
      runFrames srgbRes decodeOk [quadMesh, quadMesh] slots1 = .ok slots1 e2 ∧
      decodeCount 0 e1 = 1 ∧
      creationCount 0 e2 = 0 ∧ decodeCount 0 e2 = 0 :=
  ⟨rfl, by decide, rfl, rfl,
    texture_cache_creates_once srgbRes decodeOk quadMesh [quadMesh, quadMesh] 0 "page.png"
      sampleSampler { width := 2, height := 2 } loadingSlots rfl (by decide) (by decide)
      (by decide) rfl rfl⟩

end EguiSpine
